import Mathlib

/-!
Verification of the range copy/fill engine (cpp/src/copying/copy_range.cu)
and the device allocator entry point (src/memory/memory.cpp) against their
natural-language specification.

The embedding models gdf index and size types (signed 32-bit integers in the
source) as Int; overflow at 2^31 plays no role in any property below, while
signedness (negative counts and indices) does and is preserved.  Element
values are modelled as Int regardless of the physical element type: the type
dispatcher instantiates the same generic kernel at every physical type, so
one value domain with an explicit runtime type tag is a faithful model.
The packed validity bitmap is modelled as one Bool per element (bit set =
valid); the parallel kernel loop is modelled as a pure per-index map, which
is the observable behaviour the spec assigns to the race-free parallel
region.
-/

/-- Runtime physical type tags (gdf_dtype).  The claims need a plain
fixed-width tag, a second distinct tag for mismatch scenarios, and the
distinguished dictionary-encoded tag. -/
inductive GdfDtype where
  | GDF_INT32
  | GDF_FLOAT64
  | GDF_STRING_CATEGORY
deriving DecidableEq

/-- The error taxonomy of the copy/fill engine. -/
inductive GdfError where
  | ValidationError
  | TypeMismatchError
  | RangeError
  | TypeError
  | ReconciliationError
deriving DecidableEq

/-- A gdf_column: data buffer, validity bitmap (one Bool per element, true =
valid), logical size, cached null count, runtime type tag, and the dictionary
handle (dtype_info.category) of dictionary-encoded columns. -/
structure gdf_column where
  data : List Int
  valid : List Bool
  size : Int
  null_count : Int
  dtype : GdfDtype
  category : Nat
deriving DecidableEq

/-- A gdf_scalar: physical value, runtime type tag, validity flag.  Field
order follows the source struct. -/
structure gdf_scalar where
  data : Int
  dtype : GdfDtype
  is_valid : Bool
deriving DecidableEq

/-- Modelled from the spec: the null-bitmap accessor bit_mask::is_valid,
whose definition is outside these sources.  Reads the validity bit at the
given index; the packed bitmap is modelled at bit granularity. -/
def bit_mask_is_valid (bitmask : List Bool) (index : Int) : Bool :=
  bitmask.getD index.toNat false

/-- The element-source capability: value and validity at a logical index
relative to the destination range. -/
structure element_source where
  data : Int → Int
  valid : Int → Bool

/-- detail::scalar_factory (copy_range.cu lines 26-47): a source returning
the scalar value and the scalar validity flag at every index.  The memcpy
type pun of the source is the identity in the single value domain. -/
def scalar_factory (value : gdf_scalar) : element_source :=
  { data := fun _ => value.data, valid := fun _ => value.is_valid }

/-- detail::column_range_factory (copy_range.cu lines 49-77): a source
reading the backing column data and bitmap at offset begin + index. -/
def column_range_factory (column : gdf_column) (b : Int) : element_source :=
  { data := fun index => column.data.getD (b + index).toNat 0,
    valid := fun index => bit_mask_is_valid column.valid (b + index) }

/-- The per-index write loop of the kernel: position j of the output holds
the source value at logical index j - b when b ≤ j < e, and the original
element otherwise.  This is the order-free observable behaviour of the
data-parallel region. -/
def overwrite (d : α) (xs : List α) (f : Int → α) (b e : Int) : List α :=
  (List.range xs.length).map fun (j : Nat) =>
    if b ≤ (j : Int) ∧ (j : Int) < e then f ((j : Int) - b) else xs.getD j d

/-- Modelled from the spec: the typed range copy kernel detail::copy_range,
declared in copy_range.cuh which is not among the sources.  Per the spec it
tolerates a zero-length range as a no-op, validates the destination range
bound inside the kernel path, writes source.data i and source.valid i at
destination position out_begin + i for every i in the range, and recomputes
the destination null count as the unset-bit count over the whole bitmap. -/
def detail_copy_range (out_col : gdf_column) (source : element_source)
    (out_begin out_end : Int) : gdf_column × Option GdfError :=
  if out_end = out_begin then (out_col, none)
  else if 0 ≤ out_begin ∧ out_begin ≤ out_end ∧ out_end ≤ out_col.size then
    ({ out_col with
        data := overwrite 0 out_col.data source.data out_begin out_end
        valid := overwrite false out_col.valid source.valid out_begin out_end
        null_count :=
          ((overwrite false out_col.valid source.valid out_begin out_end).count false : Int) },
      none)
  else (out_col, some GdfError.RangeError)

/-- Modelled from the spec: structural column validation (validate), declared
outside these sources.  A column is structurally valid when its size is
non-negative and its data buffer and validity bitmap cover exactly size
elements. -/
def validate (c : gdf_column) : Bool :=
  decide (0 ≤ c.size) && (c.data.length == c.size.toNat) && (c.valid.length == c.size.toNat)

/-- Instrumented outcome of a public operation: the destination column state
at exit, the surfaced error (none = success), the number of temporary
columns created by the call and not released at exit, and whether the call
reached the typed kernel path detail::copy_range. -/
structure OpResult where
  col : gdf_column
  err : Option GdfError
  leaked : Nat
  kernel_called : Bool
deriving DecidableEq

/-- Modelled from the spec: the opaque external dictionary-synchronization
collaborator sync_column_categories.  Given the original destination and
source pair it either fails (none) or produces the reconciled temporary
pair (some); the model quantifies over its behaviour. -/
abbrev SyncFn := gdf_column → gdf_column → Option (gdf_column × gdf_column)

/-- The field swap at the end of the category reconciliation path
(copy_range.cu lines 118-121): data, valid, null_count and the dictionary
handle of the temporary destination are swapped into the real one. -/
def category_swap (out_column tk : gdf_column) : gdf_column :=
  { out_column with
    data := tk.data
    valid := tk.valid
    null_count := tk.null_count
    category := tk.category }

/-- cudf::copy_range (copy_range.cu lines 81-132).  Control flow follows the
source line by line: the zero-length no-op, validation of source then
destination, the type tag comparison, the source-range bounds check on the
signed element count, then either the category reconciliation path or the
direct kernel invocation.  On the category path the two temporary columns
made by cudf::copy count as unreleased whenever the exception raised by a
failing CUDF_EXPECTS or kernel call skips the trailing gdf_column_free
calls. -/
def copy_range (sync : SyncFn) (out_column in_column : gdf_column)
    (out_begin out_end in_begin : Int) : OpResult :=
  if out_end - out_begin = 0 then ⟨out_column, none, 0, false⟩
  else if validate in_column = false then ⟨out_column, some GdfError.ValidationError, 0, false⟩
  else if validate out_column = false then ⟨out_column, some GdfError.ValidationError, 0, false⟩
  else if out_column.dtype ≠ in_column.dtype then
    ⟨out_column, some GdfError.TypeMismatchError, 0, false⟩
  else if ¬ (in_begin ≥ 0 ∧ in_begin + (out_end - out_begin) ≤ in_column.size) then
    ⟨out_column, some GdfError.RangeError, 0, false⟩
  else if out_column.dtype = GdfDtype.GDF_STRING_CATEGORY then
    match sync out_column in_column with
    | none => ⟨out_column, some GdfError.ReconciliationError, 2, false⟩
    | some temps =>
      match (detail_copy_range temps.1 (column_range_factory temps.2 in_begin)
          out_begin out_end).2 with
      | some e => ⟨out_column, some e, 2, true⟩
      | none =>
        ⟨category_swap out_column
            (detail_copy_range temps.1 (column_range_factory temps.2 in_begin)
              out_begin out_end).1,
          none, 0, true⟩
  else
    ⟨(detail_copy_range out_column (column_range_factory in_column in_begin)
        out_begin out_end).1,
      (detail_copy_range out_column (column_range_factory in_column in_begin)
        out_begin out_end).2,
      0, true⟩

/-- cudf::fill (copy_range.cu lines 134-142): the zero-length no-op,
structural validation of the column, the type tag comparison, then the
kernel invocation with a scalar source over the raw begin/end pair. -/
def fill (column : gdf_column) (value : gdf_scalar) (b e : Int) : OpResult :=
  if e = b then ⟨column, none, 0, false⟩
  else if validate column = false then ⟨column, some GdfError.ValidationError, 0, false⟩
  else if column.dtype ≠ value.dtype then ⟨column, some GdfError.TypeMismatchError, 0, false⟩
  else
    ⟨(detail_copy_range column (scalar_factory value) b e).1,
      (detail_copy_range column (scalar_factory value) b e).2, 0, true⟩

/-- The column invariant tying the cached null count to the bitmap: the
bitmap covers exactly size elements and null_count is its unset-bit count. -/
def null_count_ok (c : gdf_column) : Prop :=
  c.valid.length = c.size.toNat ∧ c.null_count = (c.valid.count false : Int)

/-- rmm error codes (rmm.h), as used by memory.cpp. -/
inductive rmmError_t where
  | RMM_SUCCESS
  | RMM_ERROR_OUT_OF_MEMORY
  | RMM_ERROR_CUDA_ERROR
  | RMM_ERROR_INVALID_ARGUMENT
  | RMM_ERROR_IO
deriving DecidableEq

/-- Outcomes of the underlying device allocation call, as distinguished by
the RMM_CHECK_CUDA macro (memory.cpp lines 32-40): success, the distinguished
memory-allocation failure, or any other device error. -/
inductive cudaError_t where
  | cudaSuccess
  | cudaErrorMemoryAllocation
  | cudaErrorOther
deriving DecidableEq

/-- Result of the modelled rmmAlloc: the returned status and the value, if
any, written through the out-pointer slot (some 0 models writing NULL). -/
structure AllocResult where
  status : rmmError_t
  written : Option Nat
deriving DecidableEq

/-- rmmAlloc (memory.cpp lines 96-114).  ptr_slot models whether the void
pointer-to-pointer argument is non-null; the behaviour of the underlying
cudaMalloc is an explicit argument (its status and the pointer it would
produce), since the device is an external collaborator. -/
def rmmAlloc (ptr_slot : Bool) (size : Nat) (malloc_err : cudaError_t)
    (malloc_ptr : Nat) : AllocResult :=
  if ptr_slot = false ∧ size = 0 then ⟨rmmError_t.RMM_SUCCESS, none⟩
  else if size = 0 then ⟨rmmError_t.RMM_SUCCESS, some 0⟩
  else if ptr_slot = false then ⟨rmmError_t.RMM_ERROR_INVALID_ARGUMENT, none⟩
  else
    match malloc_err with
    | cudaError_t.cudaErrorMemoryAllocation => ⟨rmmError_t.RMM_ERROR_OUT_OF_MEMORY, none⟩
    | cudaError_t.cudaErrorOther => ⟨rmmError_t.RMM_ERROR_CUDA_ERROR, none⟩
    | cudaError_t.cudaSuccess => ⟨rmmError_t.RMM_SUCCESS, some malloc_ptr⟩

/-- A sync collaborator that always fails, for concrete scenarios. -/
def sync_none : SyncFn := fun _ _ => none

/-- Concrete destination of the copy_range scenario: five int32 zeros, all
valid. -/
def dest5 : gdf_column :=
  ⟨[0, 0, 0, 0, 0], [true, true, true, true, true], 5, 0, GdfDtype.GDF_INT32, 0⟩

/-- Concrete source of the copy_range scenario. -/
def src5 : gdf_column :=
  ⟨[10, 20, 30, 40, 50], [true, true, true, true, true], 5, 0, GdfDtype.GDF_INT32, 0⟩

/-- Concrete four-element all-valid int32 column of the fill scenario. -/
def col4 : gdf_column :=
  ⟨[1, 2, 3, 4], [true, true, true, true], 4, 0, GdfDtype.GDF_INT32, 0⟩

/-- The invalid scalar of the fill scenario: value 7, valid = false. -/
def scalar7 : gdf_scalar := ⟨7, GdfDtype.GDF_INT32, false⟩

/-- A valid int32 scalar. -/
def scalar9 : gdf_scalar := ⟨9, GdfDtype.GDF_INT32, true⟩

/-- A float64 scalar, giving a type mismatch against int32 columns. -/
def scalarF : gdf_scalar := ⟨1, GdfDtype.GDF_FLOAT64, true⟩

/-- A float64 column, giving a type mismatch against int32 columns. -/
def colF : gdf_column := ⟨[0, 0, 0], [true, true, true], 3, 0, GdfDtype.GDF_FLOAT64, 0⟩

/-- A one-element category-encoded column. -/
def cat1 : gdf_column := ⟨[0], [true], 1, 0, GdfDtype.GDF_STRING_CATEGORY, 0⟩

/-- A second one-element category-encoded column with a distinct dictionary
handle. -/
def cat2 : gdf_column := ⟨[0], [true], 1, 0, GdfDtype.GDF_STRING_CATEGORY, 1⟩

/-- Unfolding of structural validation into its three clauses. -/
theorem validate_spec (c : gdf_column) : validate c = true ↔
    0 ≤ c.size ∧ c.data.length = c.size.toNat ∧ c.valid.length = c.size.toNat := by
  simp [validate, Bool.and_eq_true, decide_eq_true_eq, beq_iff_eq, and_assoc]

/-- Reading a mapped enumeration at an in-range position. -/
theorem getD_range_map (f : Nat → α) (d : α) (n j : Nat) (h : j < n) :
    ((List.range n).map f).getD j d = f j := by
  rw [List.getD_eq_getElem?_getD, List.getElem?_map, List.getElem?_range h]
  rfl

/-- The kernel write loop preserves the buffer length. -/
theorem length_overwrite (d : α) (xs : List α) (f : Int → α) (b e : Int) :
    (overwrite d xs f b e).length = xs.length := by
  simp [overwrite]

/-- Reading the kernel write loop inside the written range. -/
theorem getD_overwrite_in (d : α) (xs : List α) (f : Int → α) (b e : Int) (j : Nat)
    (hj : j < xs.length) (hb : b ≤ (j : Int)) (he : (j : Int) < e) :
    (overwrite d xs f b e).getD j d = f ((j : Int) - b) := by
  unfold overwrite
  rw [getD_range_map _ _ _ _ hj, if_pos ⟨hb, he⟩]

/-- Kernel success with a valid destination range: no error, and every
position of the written range reads back the source element and source
validity at the matching logical index. -/
theorem detail_copy_range_spec (o : gdf_column) (s : element_source) (ob oe : Int)
    (h0 : 0 ≤ ob) (h1 : ob ≤ oe) (h2 : oe ≤ o.size)
    (hd : o.data.length = o.size.toNat) (hv : o.valid.length = o.size.toNat) :
    (detail_copy_range o s ob oe).2 = none ∧
    ∀ j : Int, ob ≤ j → j < oe →
      (detail_copy_range o s ob oe).1.data.getD j.toNat 0 = s.data (j - ob) ∧
      (detail_copy_range o s ob oe).1.valid.getD j.toNat false = s.valid (j - ob) := by
  unfold detail_copy_range
  by_cases heq : oe = ob
  · rw [if_pos heq]
    exact ⟨rfl, fun j hj1 hj2 => by exfalso; omega⟩
  · rw [if_neg heq, if_pos ⟨h0, h1, h2⟩]
    refine ⟨rfl, fun j hj1 hj2 => ?_⟩
    have hj0 : 0 ≤ j := le_trans h0 hj1
    have hjn : (j.toNat : Int) = j := Int.toNat_of_nonneg hj0
    have hd2 : j.toNat < o.data.length := by omega
    have hv2 : j.toNat < o.valid.length := by omega
    constructor
    · show (overwrite 0 o.data s.data ob oe).getD j.toNat 0 = s.data (j - ob)
      rw [getD_overwrite_in 0 o.data s.data ob oe j.toNat hd2
        (by rw [hjn]; exact hj1) (by rw [hjn]; exact hj2), hjn]
    · show (overwrite false o.valid s.valid ob oe).getD j.toNat false = s.valid (j - ob)
      rw [getD_overwrite_in false o.valid s.valid ob oe j.toNat hv2
        (by rw [hjn]; exact hj1) (by rw [hjn]; exact hj2), hjn]

/-- A kernel failure is always the destination range error, and the kernel
performs no write before raising it. -/
theorem detail_copy_range_err (o : gdf_column) (s : element_source) (ob oe : Int)
    (er : GdfError) (h : (detail_copy_range o s ob oe).2 = some er) :
    (detail_copy_range o s ob oe).1 = o ∧ er = GdfError.RangeError := by
  unfold detail_copy_range at h ⊢
  by_cases heq : oe = ob
  · rw [if_pos heq] at h
    exact absurd h (by simp)
  · rw [if_neg heq] at h ⊢
    by_cases hc : 0 ≤ ob ∧ ob ≤ oe ∧ oe ≤ o.size
    · rw [if_pos hc] at h
      exact absurd h (by simp)
    · rw [if_neg hc] at h ⊢
      exact ⟨rfl, (Option.some.inj h).symm⟩

/-- Kernel success on a nonempty range: the bitmap length is preserved, the
size field is untouched, and the stored null count is the unset-bit count of
the bitmap the kernel just wrote. -/
theorem detail_copy_range_ok (o : gdf_column) (s : element_source) (ob oe : Int)
    (hne : ¬ oe = ob) (h : (detail_copy_range o s ob oe).2 = none) :
    (detail_copy_range o s ob oe).1.valid.length = o.valid.length ∧
    (detail_copy_range o s ob oe).1.size = o.size ∧
    (detail_copy_range o s ob oe).1.null_count =
      (((detail_copy_range o s ob oe).1.valid.count false : Nat) : Int) := by
  unfold detail_copy_range at h ⊢
  rw [if_neg hne] at h ⊢
  by_cases hc : 0 ≤ ob ∧ ob ≤ oe ∧ oe ≤ o.size
  · rw [if_pos hc]
    exact ⟨length_overwrite _ _ _ _ _, rfl, rfl⟩
  · rw [if_neg hc] at h
    exact absurd h (by simp)

/-- copy_range on a zero-length destination range: the call returns at once,
before any validation. -/
theorem copy_range_noop_eq (sync : SyncFn) (o i : gdf_column) (ob oe ib : Int)
    (h1 : oe - ob = 0) :
    copy_range sync o i ob oe ib = ⟨o, none, 0, false⟩ := by
  unfold copy_range
  rw [if_pos h1]

/-- copy_range when the source column fails structural validation. -/
theorem copy_range_vin_eq (sync : SyncFn) (o i : gdf_column) (ob oe ib : Int)
    (h1 : ¬ oe - ob = 0) (hvi : validate i = false) :
    copy_range sync o i ob oe ib = ⟨o, some GdfError.ValidationError, 0, false⟩ := by
  unfold copy_range
  rw [if_neg h1, if_pos hvi]

/-- copy_range when the destination column fails structural validation. -/
theorem copy_range_vout_eq (sync : SyncFn) (o i : gdf_column) (ob oe ib : Int)
    (h1 : ¬ oe - ob = 0) (hvi : validate i = true) (hvo : validate o = false) :
    copy_range sync o i ob oe ib = ⟨o, some GdfError.ValidationError, 0, false⟩ := by
  unfold copy_range
  rw [if_neg h1, if_neg (by simp [hvi]), if_pos hvo]

/-- copy_range when the operand type tags disagree. -/
theorem copy_range_mismatch_eq (sync : SyncFn) (o i : gdf_column) (ob oe ib : Int)
    (h1 : ¬ oe - ob = 0) (hvi : validate i = true) (hvo : validate o = true)
    (hdt : o.dtype ≠ i.dtype) :
    copy_range sync o i ob oe ib = ⟨o, some GdfError.TypeMismatchError, 0, false⟩ := by
  unfold copy_range
  rw [if_neg h1, if_neg (by simp [hvi]), if_neg (by simp [hvo]), if_pos hdt]

/-- copy_range when the source range bounds check fails. -/
theorem copy_range_range_eq (sync : SyncFn) (o i : gdf_column) (ob oe ib : Int)
    (h1 : ¬ oe - ob = 0) (hvi : validate i = true) (hvo : validate o = true)
    (hdt : o.dtype = i.dtype) (hr : ¬ (ib ≥ 0 ∧ ib + (oe - ob) ≤ i.size)) :
    copy_range sync o i ob oe ib = ⟨o, some GdfError.RangeError, 0, false⟩ := by
  unfold copy_range
  rw [if_neg h1, if_neg (by simp [hvi]), if_neg (by simp [hvo]),
    if_neg (not_not_intro hdt), if_pos hr]

/-- copy_range on the category path when the synchronization collaborator
fails: the exception leaves both temporaries unreleased and the kernel is
never reached. -/
theorem copy_range_cat_fail_eq (sync : SyncFn) (o i : gdf_column) (ob oe ib : Int)
    (h1 : ¬ oe - ob = 0) (hvi : validate i = true) (hvo : validate o = true)
    (hdt : o.dtype = i.dtype) (hr : ib ≥ 0 ∧ ib + (oe - ob) ≤ i.size)
    (hcat : o.dtype = GdfDtype.GDF_STRING_CATEGORY) (hs : sync o i = none) :
    copy_range sync o i ob oe ib = ⟨o, some GdfError.ReconciliationError, 2, false⟩ := by
  unfold copy_range
  rw [if_neg h1, if_neg (by simp [hvi]), if_neg (by simp [hvo]),
    if_neg (not_not_intro hdt), if_neg (not_not_intro hr), if_pos hcat, hs]

/-- copy_range on the category path when synchronization produces the
reconciled temporary pair: the kernel runs on the temporaries and its
outcome decides between the swap and the propagated error. -/
theorem copy_range_cat_sync_eq (sync : SyncFn) (o i a c : gdf_column) (ob oe ib : Int)
    (h1 : ¬ oe - ob = 0) (hvi : validate i = true) (hvo : validate o = true)
    (hdt : o.dtype = i.dtype) (hr : ib ≥ 0 ∧ ib + (oe - ob) ≤ i.size)
    (hcat : o.dtype = GdfDtype.GDF_STRING_CATEGORY) (hs : sync o i = some (a, c)) :
    copy_range sync o i ob oe ib =
      match (detail_copy_range a (column_range_factory c ib) ob oe).2 with
      | some e => ⟨o, some e, 2, true⟩
      | none =>
        ⟨category_swap o (detail_copy_range a (column_range_factory c ib) ob oe).1,
          none, 0, true⟩ := by
  unfold copy_range
  rw [if_neg h1, if_neg (by simp [hvi]), if_neg (by simp [hvo]),
    if_neg (not_not_intro hdt), if_neg (not_not_intro hr), if_pos hcat, hs]

/-- copy_range outside the category path: the call reduces to the direct
kernel invocation over the source range. -/
theorem copy_range_noncat_eq (sync : SyncFn) (o i : gdf_column) (ob oe ib : Int)
    (h1 : ¬ oe - ob = 0) (hvi : validate i = true) (hvo : validate o = true)
    (hdt : o.dtype = i.dtype) (hr : ib ≥ 0 ∧ ib + (oe - ob) ≤ i.size)
    (hncat : ¬ o.dtype = GdfDtype.GDF_STRING_CATEGORY) :
    copy_range sync o i ob oe ib =
      ⟨(detail_copy_range o (column_range_factory i ib) ob oe).1,
        (detail_copy_range o (column_range_factory i ib) ob oe).2, 0, true⟩ := by
  unfold copy_range
  rw [if_neg h1, if_neg (by simp [hvi]), if_neg (by simp [hvo]),
    if_neg (not_not_intro hdt), if_neg (not_not_intro hr), if_neg hncat]

/-- fill on a zero-length range: the call returns at once, before any
validation. -/
theorem fill_noop_eq (column : gdf_column) (v : gdf_scalar) (b e : Int) (h : e = b) :
    fill column v b e = ⟨column, none, 0, false⟩ := by
  unfold fill
  rw [if_pos h]

/-- fill when the column fails structural validation. -/
theorem fill_invalid_eq (column : gdf_column) (v : gdf_scalar) (b e : Int)
    (h1 : ¬ e = b) (hv : validate column = false) :
    fill column v b e = ⟨column, some GdfError.ValidationError, 0, false⟩ := by
  unfold fill
  rw [if_neg h1, if_pos hv]

/-- fill when the scalar type tag disagrees with the column. -/
theorem fill_mismatch_eq (column : gdf_column) (v : gdf_scalar) (b e : Int)
    (h1 : ¬ e = b) (hv : validate column = true) (hdt : column.dtype ≠ v.dtype) :
    fill column v b e = ⟨column, some GdfError.TypeMismatchError, 0, false⟩ := by
  unfold fill
  rw [if_neg h1, if_neg (by simp [hv]), if_pos hdt]

/-- fill past its two checks: the call reduces to the kernel invocation with
a scalar source over the raw range, with no range validation of its own. -/
theorem fill_kernel_eq (column : gdf_column) (v : gdf_scalar) (b e : Int)
    (h1 : ¬ e = b) (hv : validate column = true) (hdt : column.dtype = v.dtype) :
    fill column v b e =
      ⟨(detail_copy_range column (scalar_factory v) b e).1,
        (detail_copy_range column (scalar_factory v) b e).2, 0, true⟩ := by
  unfold fill
  rw [if_neg h1, if_neg (by simp [hv]), if_neg (not_not_intro hdt)]

/-- Any failing copy_range call leaves the destination column exactly as it
was: every error return in the control flow precedes the first write to the
real destination. -/
theorem copy_range_error_frame (sync : SyncFn) (o i : gdf_column) (ob oe ib : Int)
    (er : GdfError) (h : (copy_range sync o i ob oe ib).err = some er) :
    (copy_range sync o i ob oe ib).col = o := by
  by_cases h1 : oe - ob = 0
  · rw [copy_range_noop_eq sync o i ob oe ib h1] at h
    exact absurd h (by simp)
  cases hvi : validate i with
  | false => rw [copy_range_vin_eq sync o i ob oe ib h1 hvi]
  | true =>
  cases hvo : validate o with
  | false => rw [copy_range_vout_eq sync o i ob oe ib h1 hvi hvo]
  | true =>
  by_cases hdt : o.dtype = i.dtype
  case neg => rw [copy_range_mismatch_eq sync o i ob oe ib h1 hvi hvo hdt]
  case pos =>
  by_cases hr : ib ≥ 0 ∧ ib + (oe - ob) ≤ i.size
  case neg => rw [copy_range_range_eq sync o i ob oe ib h1 hvi hvo hdt hr]
  case pos =>
  by_cases hcat : o.dtype = GdfDtype.GDF_STRING_CATEGORY
  case pos =>
    cases hs : sync o i with
    | none => rw [copy_range_cat_fail_eq sync o i ob oe ib h1 hvi hvo hdt hr hcat hs]
    | some temps =>
      obtain ⟨a, c⟩ := temps
      have heq := copy_range_cat_sync_eq sync o i a c ob oe ib h1 hvi hvo hdt hr hcat hs
      rw [heq] at h ⊢
      cases hk : (detail_copy_range a (column_range_factory c ib) ob oe).2 with
      | some e => rfl
      | none =>
        rw [hk] at h
        exact absurd h (by simp)
  case neg =>
    rw [copy_range_noncat_eq sync o i ob oe ib h1 hvi hvo hdt hr hcat] at h ⊢
    exact (detail_copy_range_err o (column_range_factory i ib) ob oe er h).1

/-- Any failing fill call leaves the column exactly as it was. -/
theorem fill_error_frame (column : gdf_column) (v : gdf_scalar) (b e : Int)
    (er : GdfError) (h : (fill column v b e).err = some er) :
    (fill column v b e).col = column := by
  by_cases h1 : e = b
  · rw [fill_noop_eq column v b e h1] at h
    exact absurd h (by simp)
  cases hv : validate column with
  | false => rw [fill_invalid_eq column v b e h1 hv]
  | true =>
    by_cases hdt : column.dtype = v.dtype
    case pos =>
      rw [fill_kernel_eq column v b e h1 hv hdt] at h ⊢
      exact (detail_copy_range_err column (scalar_factory v) b e er h).1
    case neg => rw [fill_mismatch_eq column v b e h1 hv hdt]

/-- C1: for every structurally valid destination and source column of equal
type tag and every valid range, copy_range succeeds and afterwards the
destination element at out_begin + i equals the source element at
in_begin + i and the destination validity bit at out_begin + i equals the
source validity bit at in_begin + i, for every i in the copied range.  For
dictionary-encoded operands the opaque synchronization collaborator is
assumed to succeed and, in the decoded-value model, to hand back
value-equivalent temporaries. -/
theorem C1_copy_range_correct (sync : SyncFn) (out_column in_column : gdf_column)
    (out_begin out_end in_begin : Int)
    (hvo : validate out_column = true) (hvi : validate in_column = true)
    (hdt : out_column.dtype = in_column.dtype)
    (h0 : 0 ≤ out_begin) (h1 : out_begin ≤ out_end) (h2 : out_end ≤ out_column.size)
    (h3 : 0 ≤ in_begin)
    (h4 : in_begin + (out_end - out_begin) ≤ in_column.size)
    (hsync : out_column.dtype = GdfDtype.GDF_STRING_CATEGORY →
      sync out_column in_column = some (out_column, in_column)) :
    (copy_range sync out_column in_column out_begin out_end in_begin).err = none ∧
    ∀ i : Int, 0 ≤ i → i < out_end - out_begin →
      (copy_range sync out_column in_column out_begin out_end in_begin).col.data.getD
          (out_begin + i).toNat 0 = in_column.data.getD (in_begin + i).toNat 0 ∧
      bit_mask_is_valid
          (copy_range sync out_column in_column out_begin out_end in_begin).col.valid
          (out_begin + i) =
        bit_mask_is_valid in_column.valid (in_begin + i) := by
  by_cases hz : out_end - out_begin = 0
  · rw [copy_range_noop_eq sync out_column in_column out_begin out_end in_begin hz]
    exact ⟨rfl, fun i hi1 hi2 => by exfalso; omega⟩
  · obtain ⟨hsz, hdl, hvl⟩ := (validate_spec out_column).mp hvo
    have hk := detail_copy_range_spec out_column (column_range_factory in_column in_begin)
      out_begin out_end h0 h1 h2 hdl hvl
    have main : ∀ i : Int, 0 ≤ i → i < out_end - out_begin →
        (detail_copy_range out_column (column_range_factory in_column in_begin)
            out_begin out_end).1.data.getD (out_begin + i).toNat 0 =
          in_column.data.getD (in_begin + i).toNat 0 ∧
        bit_mask_is_valid
            (detail_copy_range out_column (column_range_factory in_column in_begin)
              out_begin out_end).1.valid (out_begin + i) =
          bit_mask_is_valid in_column.valid (in_begin + i) := by
      intro i hi1 hi2
      have hstep := hk.2 (out_begin + i) (by omega) (by omega)
      rw [add_sub_cancel_left] at hstep
      exact hstep
    by_cases hcat : out_column.dtype = GdfDtype.GDF_STRING_CATEGORY
    · rw [copy_range_cat_sync_eq sync out_column in_column out_column in_column
        out_begin out_end in_begin hz hvi hvo hdt ⟨h3, h4⟩ hcat (hsync hcat), hk.1]
      exact ⟨rfl, fun i hi1 hi2 => main i hi1 hi2⟩
    · rw [copy_range_noncat_eq sync out_column in_column out_begin out_end in_begin
        hz hvi hvo hdt ⟨h3, h4⟩ hcat]
      exact ⟨hk.1, main⟩

/-- C1 witness: the concrete scenario of the claim, destination five int32
zeros and source 10..50, range out 1..4 from in 2, giving 0,30,40,50,0 with
null count zero. -/
theorem C1_witness :
    ((copy_range sync_none dest5 src5 1 4 2).col.data = [0, 30, 40, 50, 0] ∧
      (copy_range sync_none dest5 src5 1 4 2).col.null_count = 0) ∧
    ((copy_range sync_none dest5 src5 1 4 2).err = none ∧
      ∀ i : Int, 0 ≤ i → i < 4 - 1 →
        (copy_range sync_none dest5 src5 1 4 2).col.data.getD (1 + i).toNat 0 =
          src5.data.getD (2 + i).toNat 0 ∧
        bit_mask_is_valid (copy_range sync_none dest5 src5 1 4 2).col.valid (1 + i) =
          bit_mask_is_valid src5.valid (2 + i)) :=
  ⟨by decide,
    C1_copy_range_correct sync_none dest5 src5 1 4 2 (by decide) (by decide) (by decide)
      (by decide) (by decide) (by decide) (by decide) (by decide)
      (fun hcat => absurd hcat (by decide))⟩

/-- C2: for every structurally valid column, scalar of the same type tag and
valid range, fill succeeds and afterwards every index in the range holds the
scalar value in the data buffer and carries the scalar validity flag in the
bitmap. -/
theorem C2_fill_correct (column : gdf_column) (value : gdf_scalar) (b e : Int)
    (hv : validate column = true) (hdt : column.dtype = value.dtype)
    (h0 : 0 ≤ b) (h1 : b ≤ e) (h2 : e ≤ column.size) :
    (fill column value b e).err = none ∧
    ∀ i : Int, b ≤ i → i < e →
      (fill column value b e).col.data.getD i.toNat 0 = value.data ∧
      bit_mask_is_valid (fill column value b e).col.valid i = value.is_valid := by
  by_cases hz : e = b
  · rw [fill_noop_eq column value b e hz]
    exact ⟨rfl, fun i hi1 hi2 => by exfalso; omega⟩
  · obtain ⟨hsz, hdl, hvl⟩ := (validate_spec column).mp hv
    have hk := detail_copy_range_spec column (scalar_factory value) b e h0 h1 h2 hdl hvl
    rw [fill_kernel_eq column value b e hz hv hdt]
    exact ⟨hk.1, fun i hi1 hi2 => hk.2 i hi1 hi2⟩

/-- C2 witness: the concrete scenario of the claim, a four-element all-valid
column filled over 1..3 with an invalid scalar of value 7, giving values
1,7,7,4 with positions 1 and 2 invalid and null count two. -/
theorem C2_witness :
    ((fill col4 scalar7 1 3).col.data = [1, 7, 7, 4] ∧
      (fill col4 scalar7 1 3).col.valid = [true, false, false, true] ∧
      (fill col4 scalar7 1 3).col.null_count = 2) ∧
    ((fill col4 scalar7 1 3).err = none ∧
      ∀ i : Int, 1 ≤ i → i < 3 →
        (fill col4 scalar7 1 3).col.data.getD i.toNat 0 = scalar7.data ∧
        bit_mask_is_valid (fill col4 scalar7 1 3).col.valid i = scalar7.is_valid) :=
  ⟨by decide,
    C2_fill_correct col4 scalar7 1 3 (by decide) (by decide) (by decide) (by decide)
      (by decide)⟩

/-- C3: after every successful copy_range or fill call, the destination
cached null count equals the unset-bit count of its whole validity bitmap,
which itself covers exactly size elements: the kernel recomputes the count
from scratch, and the zero-length no-op preserves an already consistent
column.  The synchronization collaborator is assumed to hand back a
temporary whose bitmap covers the destination length, per its contract. -/
theorem C3_null_count_recomputed (sync : SyncFn) (out_column in_column : gdf_column)
    (ob oe ib : Int) (column : gdf_column) (v : gdf_scalar) (b e : Int)
    (hout : null_count_ok out_column)
    (hsync : ∀ a c : gdf_column, sync out_column in_column = some (a, c) →
      a.valid.length = out_column.valid.length)
    (hcol : null_count_ok column) :
    ((copy_range sync out_column in_column ob oe ib).err = none →
      null_count_ok (copy_range sync out_column in_column ob oe ib).col) ∧
    ((fill column v b e).err = none → null_count_ok (fill column v b e).col) := by
  constructor
  · intro hok
    by_cases hz : oe - ob = 0
    · rw [copy_range_noop_eq sync out_column in_column ob oe ib hz]
      exact hout
    cases hvi : validate in_column with
    | false =>
      rw [copy_range_vin_eq sync out_column in_column ob oe ib hz hvi] at hok
      exact absurd hok (by simp)
    | true =>
    cases hvo : validate out_column with
    | false =>
      rw [copy_range_vout_eq sync out_column in_column ob oe ib hz hvi hvo] at hok
      exact absurd hok (by simp)
    | true =>
    by_cases hdt : out_column.dtype = in_column.dtype
    case neg =>
      rw [copy_range_mismatch_eq sync out_column in_column ob oe ib hz hvi hvo hdt] at hok
      exact absurd hok (by simp)
    case pos =>
    by_cases hr : ib ≥ 0 ∧ ib + (oe - ob) ≤ in_column.size
    case neg =>
      rw [copy_range_range_eq sync out_column in_column ob oe ib hz hvi hvo hdt hr] at hok
      exact absurd hok (by simp)
    case pos =>
    have hne : ¬ oe = ob := fun hh => hz (by omega)
    by_cases hcat : out_column.dtype = GdfDtype.GDF_STRING_CATEGORY
    case pos =>
      cases hs : sync out_column in_column with
      | none =>
        rw [copy_range_cat_fail_eq sync out_column in_column ob oe ib
          hz hvi hvo hdt hr hcat hs] at hok
        exact absurd hok (by simp)
      | some temps =>
        obtain ⟨a, c⟩ := temps
        have heq := copy_range_cat_sync_eq sync out_column in_column a c ob oe ib
          hz hvi hvo hdt hr hcat hs
        rw [heq] at hok ⊢
        cases hk : (detail_copy_range a (column_range_factory c ib) ob oe).2 with
        | some er =>
          rw [hk] at hok
          exact Option.noConfusion hok
        | none =>
          have hko := detail_copy_range_ok a (column_range_factory c ib) ob oe hne hk
          refine ⟨?_, ?_⟩
          · show (detail_copy_range a (column_range_factory c ib) ob oe).1.valid.length
              = out_column.size.toNat
            rw [hko.1, hsync a c hs]
            exact hout.1
          · exact hko.2.2
    case neg =>
      rw [copy_range_noncat_eq sync out_column in_column ob oe ib
        hz hvi hvo hdt hr hcat] at hok ⊢
      have hko := detail_copy_range_ok out_column (column_range_factory in_column ib)
        ob oe hne hok
      obtain ⟨hsz, hdl, hvl⟩ := (validate_spec out_column).mp hvo
      refine ⟨?_, ?_⟩
      · show (detail_copy_range out_column (column_range_factory in_column ib) ob oe).1.valid.length
          = (detail_copy_range out_column (column_range_factory in_column ib) ob oe).1.size.toNat
        rw [hko.1, hko.2.1]
        exact hvl
      · exact hko.2.2
  · intro hok
    by_cases hz : e = b
    · rw [fill_noop_eq column v b e hz]
      exact hcol
    cases hv : validate column with
    | false =>
      rw [fill_invalid_eq column v b e hz hv] at hok
      exact absurd hok (by simp)
    | true =>
      by_cases hdt : column.dtype = v.dtype
      case neg =>
        rw [fill_mismatch_eq column v b e hz hv hdt] at hok
        exact absurd hok (by simp)
      case pos =>
        rw [fill_kernel_eq column v b e hz hv hdt] at hok ⊢
        have hko := detail_copy_range_ok column (scalar_factory v) b e hz hok
        obtain ⟨hsz, hdl, hvl⟩ := (validate_spec column).mp hv
        refine ⟨?_, ?_⟩
        · show (detail_copy_range column (scalar_factory v) b e).1.valid.length
            = (detail_copy_range column (scalar_factory v) b e).1.size.toNat
          rw [hko.1, hko.2.1]
          exact hvl
        · exact hko.2.2

/-- C3 witness: the invariant holds after the two concrete successful calls
of the spec scenarios. -/
theorem C3_witness :
    null_count_ok (copy_range sync_none dest5 src5 1 4 2).col ∧
    null_count_ok (fill col4 scalar7 1 3).col := by
  have h := C3_null_count_recomputed sync_none dest5 src5 1 4 2 col4 scalar7 1 3
    (by constructor <;> decide) (fun a c hc => nomatch hc) (by constructor <;> decide)
  exact ⟨h.1 (by decide), h.2 (by decide)⟩

/-- C4: on the category path with a failing synchronization step the call
raises ReconciliationError, yet the two temporary columns made at the start
of the path are still unreleased at exit (leaked = 2): the exception thrown
by the failing CUDF_EXPECTS skips both trailing gdf_column_free calls, so
the claim that the temporaries are released before the error propagates is
violated by the code. -/
theorem C4_sync_failure_leaks_temporaries :
    (copy_range sync_none cat1 cat2 0 1 0).err = some GdfError.ReconciliationError ∧
    (copy_range sync_none cat1 cat2 0 1 0).leaked = 2 := by
  decide

/-- C5: whenever copy_range fails with ReconciliationError (the error of the
dictionary-synchronization step), the real destination column is returned
exactly as it was: data, bitmap, null count and dictionary handle are all
untouched, since the failure precedes the field swap. -/
theorem C5_sync_failure_dest_unmodified (sync : SyncFn)
    (out_column in_column : gdf_column) (ob oe ib : Int)
    (h : (copy_range sync out_column in_column ob oe ib).err =
      some GdfError.ReconciliationError) :
    (copy_range sync out_column in_column ob oe ib).col = out_column :=
  copy_range_error_frame sync out_column in_column ob oe ib GdfError.ReconciliationError h

/-- C5 witness: a concrete category pair with a failing collaborator. -/
theorem C5_witness : (copy_range sync_none cat2 cat1 0 1 0).col = cat2 :=
  C5_sync_failure_dest_unmodified sync_none cat2 cat1 0 1 0 (by decide)

/-- C6: every copy_range or fill call that fails with ValidationError,
TypeMismatchError or RangeError leaves the destination operand entirely
untouched: all such checks precede the first mutation.  The source operand
is passed by constant reference in the source and is never written. -/
theorem C6_validation_before_mutation (sync : SyncFn)
    (out_column in_column : gdf_column) (ob oe ib : Int)
    (column : gdf_column) (v : gdf_scalar) (b e : Int) :
    (∀ er : GdfError, (copy_range sync out_column in_column ob oe ib).err = some er →
      er = GdfError.ValidationError ∨ er = GdfError.TypeMismatchError ∨
        er = GdfError.RangeError →
      (copy_range sync out_column in_column ob oe ib).col = out_column) ∧
    (∀ er : GdfError, (fill column v b e).err = some er →
      er = GdfError.ValidationError ∨ er = GdfError.TypeMismatchError ∨
        er = GdfError.RangeError →
      (fill column v b e).col = column) :=
  ⟨fun er h _ => copy_range_error_frame sync out_column in_column ob oe ib er h,
    fun er h _ => fill_error_frame column v b e er h⟩

/-- C6 witness: a rejected type-mismatched copy_range and a rejected
type-mismatched fill leave their destinations unchanged. -/
theorem C6_witness :
    (copy_range sync_none dest5 colF 0 2 0).col = dest5 ∧
    (fill col4 scalarF 1 3).col = col4 :=
  ⟨(C6_validation_before_mutation sync_none dest5 colF 0 2 0 col4 scalarF 1 3).1
      GdfError.TypeMismatchError (by decide) (Or.inr (Or.inl rfl)),
    (C6_validation_before_mutation sync_none dest5 colF 0 2 0 col4 scalarF 1 3).2
      GdfError.TypeMismatchError (by decide) (Or.inr (Or.inl rfl))⟩

/-- C7: a zero-length range makes both public operations an immediate no-op:
the call succeeds, performs no validation, reaches no kernel, releases
nothing, and returns the destination column bit-for-bit unchanged. -/
theorem C7_zero_length_noop (sync : SyncFn) (out_column in_column : gdf_column)
    (ob ib : Int) (column : gdf_column) (v : gdf_scalar) (c : Int) :
    copy_range sync out_column in_column ob ob ib = ⟨out_column, none, 0, false⟩ ∧
    fill column v c c = ⟨column, none, 0, false⟩ :=
  ⟨copy_range_noop_eq sync out_column in_column ob ob ib (by omega),
    fill_noop_eq column v c c rfl⟩

/-- C8: the allocator contract of rmmAlloc: size zero with a non-null slot
writes a null pointer and succeeds; null slot with size zero is a no-op
success; null slot with nonzero size is InvalidArgument; a device
memory-allocation failure maps to OutOfMemory, distinct from the DeviceError
code returned for any other device failure. -/
theorem C8_rmmAlloc_contract (d : cudaError_t) (p n : Nat) (hn : n ≠ 0) :
    rmmAlloc true 0 d p = ⟨rmmError_t.RMM_SUCCESS, some 0⟩ ∧
    rmmAlloc false 0 d p = ⟨rmmError_t.RMM_SUCCESS, none⟩ ∧
    rmmAlloc false n d p = ⟨rmmError_t.RMM_ERROR_INVALID_ARGUMENT, none⟩ ∧
    rmmAlloc true n cudaError_t.cudaErrorMemoryAllocation p =
      ⟨rmmError_t.RMM_ERROR_OUT_OF_MEMORY, none⟩ ∧
    rmmAlloc true n cudaError_t.cudaErrorOther p =
      ⟨rmmError_t.RMM_ERROR_CUDA_ERROR, none⟩ ∧
    rmmError_t.RMM_ERROR_OUT_OF_MEMORY ≠ rmmError_t.RMM_ERROR_CUDA_ERROR := by
  refine ⟨?_, ?_, ?_, ?_, ?_, by decide⟩ <;> simp [rmmAlloc, hn]

/-- C8 witness: the contract at slot values and size one, with a successful
device for the first three clauses. -/
theorem C8_witness :
    rmmAlloc true 0 cudaError_t.cudaSuccess 7 = ⟨rmmError_t.RMM_SUCCESS, some 0⟩ ∧
    rmmAlloc false 0 cudaError_t.cudaSuccess 7 = ⟨rmmError_t.RMM_SUCCESS, none⟩ ∧
    rmmAlloc false 1 cudaError_t.cudaSuccess 7 =
      ⟨rmmError_t.RMM_ERROR_INVALID_ARGUMENT, none⟩ ∧
    rmmAlloc true 1 cudaError_t.cudaErrorMemoryAllocation 7 =
      ⟨rmmError_t.RMM_ERROR_OUT_OF_MEMORY, none⟩ ∧
    rmmAlloc true 1 cudaError_t.cudaErrorOther 7 =
      ⟨rmmError_t.RMM_ERROR_CUDA_ERROR, none⟩ ∧
    rmmError_t.RMM_ERROR_OUT_OF_MEMORY ≠ rmmError_t.RMM_ERROR_CUDA_ERROR :=
  C8_rmmAlloc_contract cudaError_t.cudaSuccess 7 1 (by decide)

/-- C9 counterexample: fill does surface RangeError: with a structurally
valid four-element column, a matching valid scalar and the nonempty
out-of-bounds range 0..99, the call returns RangeError, raised by the
kernel path that fill invokes without any range check of its own. -/
theorem C9_counterexample :
    (fill col4 scalar9 0 99).err = some GdfError.RangeError := by
  decide

/-- C9 (amended): fill itself performs no range validation: past structural
validation and the type tag comparison it always reaches the kernel path,
handing begin and end over unexamined for every begin distinct from end, so
out-of-bounds or inverted ranges are passed through to the kernel, and any
RangeError surfaced by fill originates in the kernel path. -/
theorem C9_fill_no_range_check (column : gdf_column) (v : gdf_scalar) (b e : Int)
    (hne : e ≠ b) (hv : validate column = true) (hdt : column.dtype = v.dtype) :
    (fill column v b e).kernel_called = true ∧
    (fill column v b e).col = (detail_copy_range column (scalar_factory v) b e).1 ∧
    (fill column v b e).err = (detail_copy_range column (scalar_factory v) b e).2 := by
  rw [fill_kernel_eq column v b e hne hv hdt]
  exact ⟨rfl, rfl, rfl⟩

/-- C9 witness: an out-of-bounds range reaches the kernel through fill
unchanged. -/
theorem C9_witness :
    (fill col4 scalar9 0 99).kernel_called = true ∧
    (fill col4 scalar9 0 99).col = (detail_copy_range col4 (scalar_factory scalar9) 0 99).1 ∧
    (fill col4 scalar9 0 99).err = (detail_copy_range col4 (scalar_factory scalar9) 0 99).2 :=
  C9_fill_no_range_check col4 scalar9 0 99 (by decide) (by decide) (by decide)

/-- C10: with an inverted destination range (out_end < out_begin) and
in_begin = 0, the signed element count is negative and nonzero, so the call
is not a no-op; the source-range bounds check accepts the negative count
(0 ≥ 0 and 0 + count ≤ size both hold), and the call proceeds into the
kernel path instead of being rejected with RangeError by the validation in
copy_range itself. -/
theorem C10_inverted_range_reaches_kernel (sync : SyncFn)
    (out_column in_column : gdf_column) (ob oe : Int)
    (hvi : validate in_column = true) (hvo : validate out_column = true)
    (hdt : out_column.dtype = in_column.dtype)
    (hncat : out_column.dtype ≠ GdfDtype.GDF_STRING_CATEGORY)
    (hlt : oe < ob) :
    (copy_range sync out_column in_column ob oe 0).kernel_called = true := by
  have hsz := ((validate_spec in_column).mp hvi).1
  have hz : ¬ oe - ob = 0 := by omega
  have hr : (0 : Int) ≥ 0 ∧ 0 + (oe - ob) ≤ in_column.size := ⟨le_refl 0, by omega⟩
  rw [copy_range_noncat_eq sync out_column in_column ob oe 0 hz hvi hvo hdt hr hncat]

/-- C10 witness: destination range 3..1 with source offset 0 on two valid
int32 columns reaches the kernel path. -/
theorem C10_witness : (copy_range sync_none dest5 src5 3 1 0).kernel_called = true :=
  C10_inverted_range_reaches_kernel sync_none dest5 src5 3 1 (by decide) (by decide)
    (by decide) (by decide) (by decide)
